import Mathlib

/-!
Shallow embedding of the `ConfidentialPatentLicense` Solidity contract
(examples/patent-license, `contracts/ConfidentialPatentLicense.sol` as shown in
the example's README).

Modelling conventions:
* addresses and ciphertext handles are natural numbers (`address(0)` is `0`);
* `block.timestamp` is a `Nat` counting seconds, so `1 days = 86400`,
  `1 hours = 3600`, `365 days = 31536000`;
* the FHE gateway is modelled inside the state: `FHE.asEuintN(v)` allocates a
  fresh handle whose plaintext is recorded in `handleVal`, `FHE.allowThis` /
  `FHE.allow` prepend a grant to the access-control list `acl`;
* every external function takes the implicit Solidity inputs (`msg.sender`,
  `msg.value`, `block.timestamp`) as explicit arguments and returns
  `Except Err α × State`.  The returned state is the state at the moment the
  function returns: `require` failures return the state as mutated so far
  (statements are translated in source order), so atomicity of failures is a
  theorem about the code, not something baked into the encoding;
* each `require` string of the source is mapped to one constructor of `Err`
  (the mapping is recorded next to each check);
* Solidity 0.8 checked `uint64` arithmetic is modelled with an explicit
  `arithmeticOverflow` error where a claim's inputs are unbounded; `uint256`
  arithmetic is modelled as plain `Nat` (its overflow bound is unreachable for
  the inputs of every claim here).
-/

namespace ConfidentialPatentLicense

abbrev Addr := Nat
abbrev Handle := Nat

/-- A principal that can appear on the FHE access-control list: the contract
itself (`FHE.allowThis`) or an externally owned address (`FHE.allow`). -/
inductive Principal where
  | contract : Principal
  | user : Addr → Principal
deriving DecidableEq, Repr

/-- `enum PatentStatus { Active, Suspended, Expired }`; the Solidity zero value
is the first constructor, `active`. -/
inductive PatentStatus where
  | active : PatentStatus
  | suspended : PatentStatus
  | expired : PatentStatus
deriving DecidableEq, Repr

/-- `enum LicenseStatus { Pending, Active, Suspended, Expired, Revoked }`; the
Solidity zero value is `pending`. -/
inductive LicenseStatus where
  | pending : LicenseStatus
  | active : LicenseStatus
  | suspended : LicenseStatus
  | expired : LicenseStatus
  | revoked : LicenseStatus
deriving DecidableEq, Repr

/-- `struct PatentInfo` of the source contract. -/
structure PatentInfo where
  patentOwner : Addr
  encryptedRoyaltyRate : Handle
  encryptedMinLicenseFee : Handle
  encryptedExclusivityPeriod : Handle
  registrationTime : Nat
  expirationTime : Nat
  status : PatentStatus
  isConfidential : Bool
  patentHash : String
  territoryCode : Nat
deriving DecidableEq, Repr

/-- `struct LicenseAgreement` of the source contract. -/
structure LicenseAgreement where
  patentId : Nat
  licensee : Addr
  licensor : Addr
  encryptedLicenseFee : Handle
  encryptedRoyaltyRate : Handle
  encryptedRevenueCap : Handle
  startTime : Nat
  endTime : Nat
  status : LicenseStatus
  isExclusive : Bool
  autoRenewal : Bool
  encryptedTerritoryMask : Handle
deriving DecidableEq, Repr

/-- `struct RoyaltyPayment` of the source contract.  Note that the only
verification field is the boolean `isVerified`; the data model has no
`Disputed` state. -/
structure RoyaltyPayment where
  licenseId : Nat
  encryptedAmount : Handle
  encryptedRevenue : Handle
  paymentTime : Nat
  reportingPeriod : Nat
  isVerified : Bool
deriving DecidableEq, Repr

/-- Solidity zero value of `PatentInfo` (what `patents[id]` is before any
write at `id`). -/
def zeroPatent : PatentInfo :=
  { patentOwner := 0, encryptedRoyaltyRate := 0, encryptedMinLicenseFee := 0,
    encryptedExclusivityPeriod := 0, registrationTime := 0, expirationTime := 0,
    status := .active, isConfidential := false, patentHash := "",
    territoryCode := 0 }

/-- Solidity zero value of `LicenseAgreement`. -/
def zeroLicense : LicenseAgreement :=
  { patentId := 0, licensee := 0, licensor := 0, encryptedLicenseFee := 0,
    encryptedRoyaltyRate := 0, encryptedRevenueCap := 0, startTime := 0,
    endTime := 0, status := .pending, isExclusive := false,
    autoRenewal := false, encryptedTerritoryMask := 0 }

/-- Typed errors for the `require` strings of the source, following the
error vocabulary of the specification:
`"Invalid patent ID" / "Invalid license ID" / "Invalid payment index"`
↦ `notFound`; `"Patent not active"` ↦ `patentNotActive`;
`"Not authorized" / "Not patent owner" / "Not the licensor" /
"Not the licensee"` ↦ `unauthorized`;
`"Royalty rate too high" / "Invalid validity period" / "Invalid duration" /
"Invalid royalty rate" / "Invalid bid amount" / "Invalid decrypted values"`
↦ `invalidParameter`;
`"License not pending" / "License not active"` ↦ `invalidState`;
`"Bidding already open"` ↦ `auctionAlreadyOpen`;
`"Bidding not open" / "Bidding ended"` ↦ `auctionClosed`;
`"Bidding still active"` ↦ `auctionStillOpen`;
`"Already verified"` ↦ `alreadyVerified`; a Solidity 0.8 checked-arithmetic
panic ↦ `arithmeticOverflow`. -/
inductive Err where
  | notFound : Err
  | patentNotActive : Err
  | unauthorized : Err
  | invalidParameter : Err
  | invalidState : Err
  | auctionAlreadyOpen : Err
  | auctionClosed : Err
  | auctionStillOpen : Err
  | alreadyVerified : Err
  | arithmeticOverflow : Err
deriving DecidableEq, Repr

/-- Point update of a `Nat`-indexed map (a Solidity `mapping`). -/
def upd {α : Type} (f : Nat → α) (k : Nat) (v : α) : Nat → α :=
  fun i => if i = k then v else f i

/-- Point update of a doubly indexed map
(`mapping(uint256 => mapping(address => ...))`). -/
def upd2 {α : Type} (f : Nat → Nat → α) (k1 k2 : Nat) (v : α) : Nat → Nat → α :=
  fun i j => if i = k1 ∧ j = k2 then v else f i j

/-- The full contract state: the storage variables of
`ConfidentialPatentLicense` plus the model of the FHE gateway
(`nextHandle`, `handleVal`, `acl`). -/
structure State where
  owner : Addr
  nextPatentId : Nat
  nextLicenseId : Nat
  patents : Nat → PatentInfo
  licenses : Nat → LicenseAgreement
  royaltyPayments : Nat → List RoyaltyPayment
  userPatents : Addr → List Nat
  userLicenses : Addr → List Nat
  patentLicenses : Nat → List Nat
  confidentialBids : Nat → Addr → Handle
  bidders : Nat → List Addr
  biddingOpen : Nat → Bool
  biddingEndTime : Nat → Nat
  nextHandle : Handle
  handleVal : Handle → Nat
  acl : List (Handle × Principal)

/-- The constructor: `owner = msg.sender; nextPatentId = 1; nextLicenseId = 1`.
Handle `0` is reserved for the uninitialized ciphertext (`euint64` zero
value), so fresh handles start at `1`. -/
def deployState (deployer : Addr) : State :=
  { owner := deployer, nextPatentId := 1, nextLicenseId := 1,
    patents := fun _ => zeroPatent, licenses := fun _ => zeroLicense,
    royaltyPayments := fun _ => [], userPatents := fun _ => [],
    userLicenses := fun _ => [], patentLicenses := fun _ => [],
    confidentialBids := fun _ _ => 0, bidders := fun _ => [],
    biddingOpen := fun _ => false, biddingEndTime := fun _ => 0,
    nextHandle := 1, handleVal := fun _ => 0, acl := [] }

/-- `FHE.asEuint64 / asEuint32 / asEuint8`: the gateway allocates a fresh
handle for the given plaintext. -/
def asEuint (s : State) (v : Nat) : State × Handle :=
  ({ s with nextHandle := s.nextHandle + 1,
            handleVal := upd s.handleVal s.nextHandle v }, s.nextHandle)

/-- `FHE.allowThis(h)`: grant the contract itself access to handle `h`. -/
def allowThis (s : State) (h : Handle) : State :=
  { s with acl := (h, Principal.contract) :: s.acl }

/-- `FHE.allow(h, a)`: grant address `a` access to handle `h`. -/
def allow (s : State) (h : Handle) (a : Addr) : State :=
  { s with acl := (h, Principal.user a) :: s.acl }

/-- The `validPatent(patentId)` modifier:
`require(patentId < nextPatentId, "Invalid patent ID")` then
`require(patents[patentId].status == PatentStatus.Active, "Patent not active")`. -/
def validPatentCheck (s : State) (patentId : Nat) : Option Err :=
  if patentId < s.nextPatentId then
    if (s.patents patentId).status = PatentStatus.active then none
    else some Err.patentNotActive
  else some Err.notFound

/-- `registerPatent(royaltyRate, minLicenseFee, exclusivityPeriod,
validityYears, patentHash, territoryCode, isConfidential)`. -/
def registerPatent (s : State) (sender : Addr) (now : Nat)
    (royaltyRate minLicenseFee exclusivityPeriod validityYears : Nat)
    (patentHash : String) (territoryCode : Nat) (isConfidential : Bool) :
    Except Err Nat × State :=
  -- require(royaltyRate <= 10000, "Royalty rate too high")
  if ¬ royaltyRate ≤ 10000 then (Except.error Err.invalidParameter, s)
  -- require(validityYears > 0 && validityYears <= 20, "Invalid validity period")
  else if ¬ (0 < validityYears ∧ validityYears ≤ 20) then
    (Except.error Err.invalidParameter, s)
  else
    -- patentId = nextPatentId++
    let patentId := s.nextPatentId
    let s1 := { s with nextPatentId := s.nextPatentId + 1 }
    let p1 := asEuint s1 royaltyRate
    let p2 := asEuint p1.1 minLicenseFee
    let p3 := asEuint p2.1 exclusivityPeriod
    let s4 := p3.1
    let patent : PatentInfo :=
      { patentOwner := sender, encryptedRoyaltyRate := p1.2,
        encryptedMinLicenseFee := p2.2, encryptedExclusivityPeriod := p3.2,
        registrationTime := now,
        expirationTime := now + validityYears * 365 * 86400,
        status := PatentStatus.active, isConfidential := isConfidential,
        patentHash := patentHash, territoryCode := territoryCode }
    let s5 := { s4 with patents := upd s4.patents patentId patent }
    let s6 := allowThis (allowThis (allowThis s5 p1.2) p2.2) p3.2
    let s7 :=
      if isConfidential then s6
      else allow (allow (allow s6 p1.2 sender) p2.2 sender) p3.2 sender
    let s8 := { s7 with
      userPatents := upd s7.userPatents sender (s7.userPatents sender ++ [patentId]) }
    (Except.ok patentId, s8)

/-- Internal `_setLicenseFHEPermissions`: `allowThis` on all four license
ciphertexts, then `FHE.allow` — for `encryptedFee` and `encryptedRoyalty`
only — to `msg.sender` (the licensee) and to the patent owner. -/
def _setLicenseFHEPermissions (s : State)
    (encFee encRoyalty encRevenueCap encTerritory : Handle)
    (sender patentOwner : Addr) : State :=
  let s1 := allowThis s encFee
  let s2 := allowThis s1 encRoyalty
  let s3 := allowThis s2 encRevenueCap
  let s4 := allowThis s3 encTerritory
  let s5 := allow s4 encFee sender
  let s6 := allow s5 encFee patentOwner
  let s7 := allow s6 encRoyalty sender
  allow s7 encRoyalty patentOwner

/-- Internal `_createLicenseAgreement`: encrypts the four proposal terms,
stores the `Pending` license, sets FHE permissions and updates the index
lists. -/
def _createLicenseAgreement (s : State) (sender : Addr)
    (licenseId patentId proposedFee proposedRoyaltyRate revenueCap : Nat)
    (requestExclusive autoRenewal : Bool) (territoryMask : Nat) : State :=
  let p1 := asEuint s proposedFee
  let p2 := asEuint p1.1 proposedRoyaltyRate
  let p3 := asEuint p2.1 revenueCap
  let p4 := asEuint p3.1 territoryMask
  let s4 := p4.1
  let patentOwner := (s4.patents patentId).patentOwner
  let lic : LicenseAgreement :=
    { patentId := patentId, licensee := sender, licensor := patentOwner,
      encryptedLicenseFee := p1.2, encryptedRoyaltyRate := p2.2,
      encryptedRevenueCap := p3.2, startTime := 0, endTime := 0,
      status := LicenseStatus.pending, isExclusive := requestExclusive,
      autoRenewal := autoRenewal, encryptedTerritoryMask := p4.2 }
  let s5 := { s4 with licenses := upd s4.licenses licenseId lic }
  let s6 := _setLicenseFHEPermissions s5 p1.2 p2.2 p3.2 p4.2 sender patentOwner
  let s7 := { s6 with
    userLicenses := upd s6.userLicenses sender (s6.userLicenses sender ++ [licenseId]) }
  { s7 with
    patentLicenses := upd s7.patentLicenses patentId (s7.patentLicenses patentId ++ [licenseId]) }

/-- `requestLicense(patentId, proposedFee, proposedRoyaltyRate, revenueCap,
durationDays, requestExclusive, autoRenewal, territoryMask)` with the
`validPatent(patentId)` modifier. -/
def requestLicense (s : State) (sender : Addr)
    (patentId proposedFee proposedRoyaltyRate revenueCap durationDays : Nat)
    (requestExclusive autoRenewal : Bool) (territoryMask : Nat) :
    Except Err Nat × State :=
  match validPatentCheck s patentId with
  | some e => (Except.error e, s)
  | none =>
    -- require(durationDays > 0, "Invalid duration")
    if ¬ 0 < durationDays then (Except.error Err.invalidParameter, s)
    -- require(proposedRoyaltyRate <= 10000, "Invalid royalty rate")
    else if ¬ proposedRoyaltyRate ≤ 10000 then (Except.error Err.invalidParameter, s)
    else
      -- licenseId = nextLicenseId++
      let licenseId := s.nextLicenseId
      let s1 := { s with nextLicenseId := s.nextLicenseId + 1 }
      let s2 := _createLicenseAgreement s1 sender licenseId patentId proposedFee
        proposedRoyaltyRate revenueCap requestExclusive autoRenewal territoryMask
      (Except.ok licenseId, s2)

/-- `approveLicense(licenseId, durationDays)` with the
`validLicense(licenseId)` modifier. -/
def approveLicense (s : State) (sender : Addr) (now licenseId durationDays : Nat) :
    Except Err Unit × State :=
  -- validLicense: require(licenseId < nextLicenseId, "Invalid license ID")
  if ¬ licenseId < s.nextLicenseId then (Except.error Err.notFound, s)
  else
    let lic := s.licenses licenseId
    -- require(license.licensor == msg.sender, "Not the licensor")
    if ¬ lic.licensor = sender then (Except.error Err.unauthorized, s)
    -- require(license.status == LicenseStatus.Pending, "License not pending")
    else if ¬ lic.status = LicenseStatus.pending then
      (Except.error Err.invalidState, s)
    else
      let lic2 := { lic with status := LicenseStatus.active, startTime := now,
                             endTime := now + durationDays * 86400 }
      (Except.ok (), { s with licenses := upd s.licenses licenseId lic2 })

/-- `startConfidentialBidding(patentId, biddingDurationHours)` with the
`onlyPatentOwner(patentId)` modifier. -/
def startConfidentialBidding (s : State) (sender : Addr)
    (now patentId biddingDurationHours : Nat) : Except Err Unit × State :=
  -- onlyPatentOwner: require(patents[patentId].patentOwner == msg.sender, ...)
  if ¬ (s.patents patentId).patentOwner = sender then
    (Except.error Err.unauthorized, s)
  -- require(!biddingOpen[patentId], "Bidding already open")
  else if s.biddingOpen patentId then (Except.error Err.auctionAlreadyOpen, s)
  -- require(biddingDurationHours > 0 && biddingDurationHours <= 168, ...)
  else if ¬ (0 < biddingDurationHours ∧ biddingDurationHours ≤ 168) then
    (Except.error Err.invalidParameter, s)
  else
    let s1 := { s with biddingOpen := upd s.biddingOpen patentId true }
    (Except.ok (), { s1 with
      biddingEndTime := upd s1.biddingEndTime patentId (now + biddingDurationHours * 3600) })

/-- `submitConfidentialBid(patentId, bidAmount)` with the
`validPatent(patentId)` modifier. -/
def submitConfidentialBid (s : State) (sender : Addr)
    (now patentId bidAmount : Nat) : Except Err Unit × State :=
  match validPatentCheck s patentId with
  | some e => (Except.error e, s)
  | none =>
    -- require(biddingOpen[patentId], "Bidding not open")
    if ¬ s.biddingOpen patentId then (Except.error Err.auctionClosed, s)
    -- require(block.timestamp < biddingEndTime[patentId], "Bidding ended")
    else if ¬ now < s.biddingEndTime patentId then
      (Except.error Err.auctionClosed, s)
    -- require(bidAmount > 0, "Invalid bid amount")
    else if ¬ 0 < bidAmount then (Except.error Err.invalidParameter, s)
    else
      -- first-time bidder scan over bidders[patentId], then push
      let isFirstBid := ¬ (s.bidders patentId).contains sender
      let s1 :=
        if isFirstBid then
          { s with bidders := upd s.bidders patentId (s.bidders patentId ++ [sender]) }
        else s
      -- encryptedBid = FHE.asEuint64(bidAmount); store it
      let p := asEuint s1 bidAmount
      let s2 := p.1
      let s3 := { s2 with
        confidentialBids := upd2 s2.confidentialBids patentId sender p.2 }
      let s4 := allowThis s3 p.2
      let s5 := allow s4 p.2 sender
      (Except.ok (), allow s5 p.2 (s5.patents patentId).patentOwner)

/-- Internal `_findHighestBidder`: despite its name, the source returns
`address(0)` for an empty bidder list and otherwise `bidders[patentId][0]`,
the FIRST bidder — its own comment reads "In a real implementation, this
would use FHE comparison. For now, return the first bidder as a
placeholder". -/
def _findHighestBidder (s : State) (patentId : Nat) : Addr :=
  match s.bidders patentId with
  | [] => 0
  | b :: _ => b

/-- `finalizeBidding(patentId)` with the `onlyPatentOwner(patentId)`
modifier. -/
def finalizeBidding (s : State) (sender : Addr) (now patentId : Nat) :
    Except Err Unit × State :=
  -- onlyPatentOwner
  if ¬ (s.patents patentId).patentOwner = sender then
    (Except.error Err.unauthorized, s)
  -- require(biddingOpen[patentId], "Bidding not open")
  else if ¬ s.biddingOpen patentId then (Except.error Err.auctionClosed, s)
  -- require(block.timestamp >= biddingEndTime[patentId], "Bidding still active")
  else if ¬ s.biddingEndTime patentId ≤ now then
    (Except.error Err.auctionStillOpen, s)
  else
    let s1 := { s with biddingOpen := upd s.biddingOpen patentId false }
    let winner := _findHighestBidder s1 patentId
    if winner = 0 then (Except.ok (), s1)
    else
      let licenseId := s1.nextLicenseId
      let s2 := { s1 with nextLicenseId := s1.nextLicenseId + 1 }
      let p1 := asEuint s2 0        -- FHE.asEuint32(0) for the revenue cap
      let p2 := asEuint p1.1 255    -- FHE.asEuint8(255), all territories
      let s4 := p2.1
      let lic : LicenseAgreement :=
        { patentId := patentId, licensee := winner, licensor := sender,
          encryptedLicenseFee := s4.confidentialBids patentId winner,
          encryptedRoyaltyRate := (s4.patents patentId).encryptedRoyaltyRate,
          encryptedRevenueCap := p1.2, startTime := now,
          endTime := now + 365 * 86400, status := LicenseStatus.active,
          isExclusive := true, autoRenewal := false,
          encryptedTerritoryMask := p2.2 }
      let s5 := { s4 with licenses := upd s4.licenses licenseId lic }
      let s6 := { s5 with
        userLicenses := upd s5.userLicenses winner (s5.userLicenses winner ++ [licenseId]) }
      (Except.ok (), { s6 with
        patentLicenses := upd s6.patentLicenses patentId (s6.patentLicenses patentId ++ [licenseId]) })

/-- `payRoyalties(licenseId, reportedRevenue, reportingPeriod)` (payable;
`value` is `msg.value`, truncated to `uint64` for encryption as in the
source's `uint64(msg.value)`).  The final `transfer` to the licensor is an
external value transfer, outside the modelled storage. -/
def payRoyalties (s : State) (sender : Addr)
    (value now licenseId reportedRevenue reportingPeriod : Nat) :
    Except Err Unit × State :=
  -- validLicense: require(licenseId < nextLicenseId, "Invalid license ID")
  if ¬ licenseId < s.nextLicenseId then (Except.error Err.notFound, s)
  else
    let lic := s.licenses licenseId
    -- require(license.licensee == msg.sender, "Not the licensee")
    if ¬ lic.licensee = sender then (Except.error Err.unauthorized, s)
    -- require(license.status == LicenseStatus.Active, "License not active")
    else if ¬ lic.status = LicenseStatus.active then
      (Except.error Err.invalidState, s)
    else
      let p1 := asEuint s reportedRevenue
      let p2 := asEuint p1.1 (value % 2 ^ 64)
      let s2 := p2.1
      let pay : RoyaltyPayment :=
        { licenseId := licenseId, encryptedAmount := p2.2,
          encryptedRevenue := p1.2, paymentTime := now,
          reportingPeriod := reportingPeriod, isVerified := false }
      let s3 := { s2 with
        royaltyPayments := upd s2.royaltyPayments licenseId (s2.royaltyPayments licenseId ++ [pay]) }
      let s4 := allowThis s3 p1.2
      let s5 := allowThis s4 p2.2
      let s6 := allow s5 p1.2 lic.licensor
      (Except.ok (), allow s6 p2.2 lic.licensor)

/-- `requestRoyaltyVerification(licenseId, paymentIndex)`: on success it
hands exactly the three ciphertexts `[payment.encryptedRevenue,
license.encryptedRoyaltyRate, payment.encryptedAmount]` to
`FHE.requestDecryption` (an external call, returned here as the result
value); the contract state is unchanged. -/
def requestRoyaltyVerification (s : State) (sender : Addr)
    (licenseId paymentIndex : Nat) : Except Err (List Handle) × State :=
  -- validLicense
  if ¬ licenseId < s.nextLicenseId then (Except.error Err.notFound, s)
  else
    let lic := s.licenses licenseId
    -- require(license.licensor == msg.sender, "Not the licensor")
    if ¬ lic.licensor = sender then (Except.error Err.unauthorized, s)
    -- require(paymentIndex < royaltyPayments[licenseId].length, "Invalid payment index")
    else if ¬ paymentIndex < (s.royaltyPayments licenseId).length then
      (Except.error Err.notFound, s)
    else
      let pay := (s.royaltyPayments licenseId).getD paymentIndex
        { licenseId := 0, encryptedAmount := 0, encryptedRevenue := 0,
          paymentTime := 0, reportingPeriod := 0, isVerified := false }
      -- require(!payment.isVerified, "Already verified")
      if pay.isVerified then (Except.error Err.alreadyVerified, s)
      else
        (Except.ok [pay.encryptedRevenue, lic.encryptedRoyaltyRate, pay.encryptedAmount], s)

/-- `processRoyaltyVerification(requestId, decryptedValues, signatures)`, the
decryption-oracle callback.  The `Bool` result models the local variable
`isValid` that the source computes on line
`bool isValid = paidAmount >= (expectedRoyalty * 95) / 100;` and then
discards: the source mutates no storage in this function (the
`emit RoyaltyVerified(...)` is commented out and no payment is updated),
which is why the state component of the result is always the input state.
`uint64` multiplication is checked (Solidity 0.8 panics on overflow). -/
def processRoyaltyVerification (s : State) (requestId : Nat)
    (decryptedValues : List Nat) : Except Err Bool × State :=
  -- require(decryptedValues.length >= 3, "Invalid decrypted values")
  if ¬ 3 ≤ decryptedValues.length then (Except.error Err.invalidParameter, s)
  else
    let revenue := decryptedValues.getD 0 0
    let royaltyRate := decryptedValues.getD 1 0
    let paidAmount := decryptedValues.getD 2 0
    -- uint64 expectedRoyalty = (revenue * royaltyRate) / 10000
    if ¬ revenue * royaltyRate < 2 ^ 64 then (Except.error Err.arithmeticOverflow, s)
    else
      let expectedRoyalty := revenue * royaltyRate / 10000
      -- bool isValid = paidAmount >= (expectedRoyalty * 95) / 100
      if ¬ expectedRoyalty * 95 < 2 ^ 64 then (Except.error Err.arithmeticOverflow, s)
      else
        (Except.ok (decide (expectedRoyalty * 95 / 100 ≤ paidAmount)), s)

/-- `updatePatentStatus(patentId, newStatus)` with `onlyPatentOwner`. -/
def updatePatentStatus (s : State) (sender : Addr) (patentId : Nat)
    (newStatus : PatentStatus) : Except Err Unit × State :=
  if ¬ (s.patents patentId).patentOwner = sender then
    (Except.error Err.unauthorized, s)
  else
    (Except.ok (), { s with
      patents := upd s.patents patentId { s.patents patentId with status := newStatus } })

/-- `getPatentInfo(patentId)` with the `validPatent(patentId)` modifier; a
view function.  `sender` is `msg.sender`, which the source never reads —
the result is the same for every caller. -/
def getPatentInfo (s : State) (sender : Addr) (patentId : Nat) :
    Except Err (Addr × Nat × Nat × PatentStatus × Bool × String × Nat) :=
  match validPatentCheck s patentId with
  | some e => Except.error e
  | none =>
    let p := s.patents patentId
    Except.ok (p.patentOwner, p.registrationTime, p.expirationTime, p.status,
      p.isConfidential, p.patentHash, p.territoryCode)

/-- `emergencyPause(patentId)` with the `onlyOwner` modifier
(`require(msg.sender == owner, "Not authorized")`): the contract deployer,
not the patent owner, may suspend any patent. -/
def emergencyPause (s : State) (sender : Addr) (patentId : Nat) :
    Except Err Unit × State :=
  if ¬ sender = s.owner then (Except.error Err.unauthorized, s)
  else
    (Except.ok (), { s with
      patents := upd s.patents patentId
        { s.patents patentId with status := PatentStatus.suspended } })

/-- `emergencyResume(patentId)` with the `onlyOwner` modifier. -/
def emergencyResume (s : State) (sender : Addr) (patentId : Nat) :
    Except Err Unit × State :=
  if ¬ sender = s.owner then (Except.error Err.unauthorized, s)
  else
    (Except.ok (), { s with
      patents := upd s.patents patentId
        { s.patents patentId with status := PatentStatus.active } })

/-- True exactly when the `Except` result is an error. -/
def isErr {α : Type} : Except Err α → Bool
  | Except.error _ => true
  | Except.ok _ => false

/-! Concrete executions used by the counterexample and witness theorems:
the contract is deployed by address `9`; address `1` registers patent `1`
at time `100` (royalty 500 bp, min fee 100, exclusivity 30 days, validity
5 years, confidential); address `2` then requests license `1`. -/

/-- Freshly deployed contract, deployer address `9`. -/
def exDeploy : State := deployState 9

/-- After `registerPatent` by address `1`: patent `1` exists and is Active. -/
def exReg : State :=
  (registerPatent exDeploy 1 100 500 100 30 5 "QmHash" 1 true).2

/-- After `requestLicense` by address `2` on patent `1` (fee 150, royalty
500 bp, revenue cap 1000, 60 days): license `1` is Pending,
licensee `2`, licensor `1`. -/
def exLic : State := (requestLicense exReg 2 1 150 500 1000 60 false false 3).2

/-- After `startConfidentialBidding` by the patent owner `1` at time `200`
for 24 hours: bidding on patent `1` is open until time `86600`. -/
def exBid : State := (startConfidentialBidding exLic 1 200 1 24).2

/-- Three sealed bids, in submission order: address `2` bids 10, address `3`
bids 50, address `4` bids 30. -/
def exBids : State :=
  (submitConfidentialBid
    (submitConfidentialBid
      (submitConfidentialBid exBid 2 300 1 10).2 3 301 1 50).2 4 302 1 30).2

/-- `finalizeBidding` by the patent owner at the deadline (time `86600`). -/
def exFinR : Except Err Unit × State := finalizeBidding exBids 1 86600 1

/-- State after auction finalization: license `2` is the exclusive license
it creates. -/
def exFin : State := exFinR.2

/-- After the licensor `1` approves license `1` at time `400` for 30 days. -/
def exApp : State := (approveLicense exLic 1 400 1 30).2

/-- After the licensee `2` pays royalties on license `1` (value 96, reported
revenue 1000, period 7): payment `0` exists and is unverified. -/
def exPay : State := (payRoyalties exApp 2 96 500 1 1000 7).2

/-- `exBid` after the contract deployer suspends patent `1` by
`emergencyPause` — the bidding window on patent `1` is still open. -/
def exSusp : State := (emergencyPause exBid 9 1).2

/-- `exBid` after the patent owner sets patent `1` to Expired — the bidding
window on patent `1` is still open. -/
def exExp : State := (updatePatentStatus exBid 1 1 PatentStatus.expired).2

/-- `exReg` after the contract deployer suspends patent `1`. -/
def exRegSusp : State := (emergencyPause exReg 9 1).2

/-- Helper: the `validPatent` modifier passes on an existing Active patent. -/
theorem validPatentCheck_none (s : State) (patentId : Nat)
    (h1 : patentId < s.nextPatentId)
    (h2 : (s.patents patentId).status = PatentStatus.active) :
    validPatentCheck s patentId = none := by
  simp [validPatentCheck, h1, h2]

/-- Helper: the `validPatent` modifier rejects an existing non-Active patent
with the `"Patent not active"` error. -/
theorem validPatentCheck_inactive (s : State) (patentId : Nat)
    (h1 : patentId < s.nextPatentId)
    (h2 : (s.patents patentId).status ≠ PatentStatus.active) :
    validPatentCheck s patentId = some Err.patentNotActive := by
  simp [validPatentCheck, h1, h2]

/-- C1: the claim says `finalize` selects as winner the bidder with the
maximum bid (among bids 10, 50, 30 the bidder who bid 50 must win).  The
code does not: with bids submitted in order `2 ↦ 10`, `3 ↦ 50`, `4 ↦ 30`,
`finalizeBidding` succeeds and awards the exclusive license to address `2`,
the FIRST bidder, whose bid plaintext is `10` — not to address `3` whose
bid `50` is the maximum — because `_findHighestBidder` returns
`bidders[patentId][0]`.  (The second half of the claim does hold: the
created license's fee ciphertext is the winning — here: first — bidder's
bid ciphertext.) -/
theorem c1_finalize_awards_first_bidder_not_highest :
    exFinR.1 = Except.ok () ∧
    exFin.bidders 1 = [2, 3, 4] ∧
    exFin.handleVal (exFin.confidentialBids 1 2) = 10 ∧
    exFin.handleVal (exFin.confidentialBids 1 3) = 50 ∧
    exFin.handleVal (exFin.confidentialBids 1 4) = 30 ∧
    (exFin.licenses 2).licensee = 2 ∧
    (exFin.licenses 2).encryptedLicenseFee = exFin.confidentialBids 1 2 ∧
    exFin.handleVal ((exFin.licenses 2).encryptedLicenseFee) = 10 :=
  ⟨rfl, rfl, rfl, rfl, rfl, rfl, rfl, rfl⟩

/-- C2: the claim says the verification callback computes
`expected = reportedRevenue * royaltyRate / 10000` and marks the targeted
payment Verified when `transferredAmount ≥ 0.95 · expected`, else Disputed.
The arithmetic is present (with values `[1000, 1000, 96]` the verdict is
`true`, with `[1000, 1000, 94]` it is `false`), but the callback marks
nothing: it returns the contract state completely unchanged — payment `0`
of license `1` stays `isVerified = false` — and the data model has no
Disputed state at all (the verdict is a discarded local variable). -/
theorem c2_callback_computes_verdict_but_marks_nothing :
    (requestRoyaltyVerification exPay 1 1 0).1 = Except.ok [8, 5, 9] ∧
    processRoyaltyVerification exPay 42 [1000, 1000, 96] = (Except.ok true, exPay) ∧
    processRoyaltyVerification exPay 42 [1000, 1000, 94] = (Except.ok false, exPay) ∧
    (exPay.royaltyPayments 1).map (fun p => p.isVerified) = [false] :=
  ⟨rfl, rfl, rfl, rfl⟩

/-- C3 counterexample: after the license request by address `2` on the
patent owned by address `1`, the fee ciphertext is granted to the licensee,
but the `territoryMask` and `revenueCap` ciphertexts are granted to
neither the licensee nor the licensor — so it is false that all four
negotiable terms are granted for disclosure to both parties. -/
theorem c3_counterexample_territory_and_cap_not_granted :
    (exLic.licenses 1).licensee = 2 ∧
    (exLic.licenses 1).licensor = 1 ∧
    ((exLic.licenses 1).encryptedLicenseFee, Principal.user 2) ∈ exLic.acl ∧
    ((exLic.licenses 1).encryptedTerritoryMask, Principal.user 2) ∉ exLic.acl ∧
    ((exLic.licenses 1).encryptedTerritoryMask, Principal.user 1) ∉ exLic.acl ∧
    ((exLic.licenses 1).encryptedRevenueCap, Principal.user 2) ∉ exLic.acl ∧
    ((exLic.licenses 1).encryptedRevenueCap, Principal.user 1) ∉ exLic.acl := by
  decide

/-- C3 amended: every successful license request grants the fee and
royalty-rate ciphertexts for disclosure to both the requesting licensee and
the patent's owner, but the revenue-cap and territory-mask ciphertexts are
granted only to the contract itself (`FHE.allowThis`) — the access-control
list grows by exactly these eight grants. -/
theorem c3_request_grants_fee_and_royalty_to_both_parties_only
    (s : State) (sender : Addr)
    (patentId fee rate cap dur : Nat) (exc ar : Bool) (tm : Nat)
    (hp : patentId < s.nextPatentId)
    (ha : (s.patents patentId).status = PatentStatus.active)
    (hd : 0 < dur) (hr : rate ≤ 10000) :
    (requestLicense s sender patentId fee rate cap dur exc ar tm).1 =
      Except.ok s.nextLicenseId ∧
    ((requestLicense s sender patentId fee rate cap dur exc ar tm).2.licenses
        s.nextLicenseId).encryptedLicenseFee = s.nextHandle ∧
    ((requestLicense s sender patentId fee rate cap dur exc ar tm).2.licenses
        s.nextLicenseId).encryptedRoyaltyRate = s.nextHandle + 1 ∧
    ((requestLicense s sender patentId fee rate cap dur exc ar tm).2.licenses
        s.nextLicenseId).encryptedRevenueCap = s.nextHandle + 2 ∧
    ((requestLicense s sender patentId fee rate cap dur exc ar tm).2.licenses
        s.nextLicenseId).encryptedTerritoryMask = s.nextHandle + 3 ∧
    (requestLicense s sender patentId fee rate cap dur exc ar tm).2.acl =
      [(s.nextHandle + 1, Principal.user (s.patents patentId).patentOwner),
       (s.nextHandle + 1, Principal.user sender),
       (s.nextHandle, Principal.user (s.patents patentId).patentOwner),
       (s.nextHandle, Principal.user sender),
       (s.nextHandle + 3, Principal.contract),
       (s.nextHandle + 2, Principal.contract),
       (s.nextHandle + 1, Principal.contract),
       (s.nextHandle, Principal.contract)] ++ s.acl := by
  simp [requestLicense, validPatentCheck_none s patentId hp ha,
    _createLicenseAgreement, _setLicenseFHEPermissions, asEuint, allowThis,
    allow, upd, hd, hr]

/-- C3 witness: the amended theorem applied to the concrete request of
`exLic` (handles 4–7; licensee `2`, licensor `1`). -/
theorem c3_request_grants_witness :
    (requestLicense exReg 2 1 150 500 1000 60 false false 3).1 =
      Except.ok exReg.nextLicenseId ∧
    ((requestLicense exReg 2 1 150 500 1000 60 false false 3).2.licenses
        exReg.nextLicenseId).encryptedLicenseFee = exReg.nextHandle ∧
    ((requestLicense exReg 2 1 150 500 1000 60 false false 3).2.licenses
        exReg.nextLicenseId).encryptedRoyaltyRate = exReg.nextHandle + 1 ∧
    ((requestLicense exReg 2 1 150 500 1000 60 false false 3).2.licenses
        exReg.nextLicenseId).encryptedRevenueCap = exReg.nextHandle + 2 ∧
    ((requestLicense exReg 2 1 150 500 1000 60 false false 3).2.licenses
        exReg.nextLicenseId).encryptedTerritoryMask = exReg.nextHandle + 3 ∧
    (requestLicense exReg 2 1 150 500 1000 60 false false 3).2.acl =
      [(exReg.nextHandle + 1, Principal.user (exReg.patents 1).patentOwner),
       (exReg.nextHandle + 1, Principal.user 2),
       (exReg.nextHandle, Principal.user (exReg.patents 1).patentOwner),
       (exReg.nextHandle, Principal.user 2),
       (exReg.nextHandle + 3, Principal.contract),
       (exReg.nextHandle + 2, Principal.contract),
       (exReg.nextHandle + 1, Principal.contract),
       (exReg.nextHandle, Principal.contract)] ++ exReg.acl :=
  c3_request_grants_fee_and_royalty_to_both_parties_only exReg 2 1 150 500
    1000 60 false false 3 (by decide) (by decide) (by decide) (by decide)

/-- C4: for every existing license, `approveLicense` fails with
`Unauthorized` when the caller is not the licensor, fails with
`InvalidState` when the license is not Pending, and on success sets the
status to Active with `startTime = now` and
`endTime = now + durationDays · 86400` (seconds); afterwards a second
approve by the licensor fails with `InvalidState`, so approve succeeds at
most once per license. -/
theorem c4_approveLicense_spec :
    (∀ (s : State) (sender : Addr) (now lid dd : Nat),
      lid < s.nextLicenseId → (s.licenses lid).licensor ≠ sender →
      approveLicense s sender now lid dd = (Except.error Err.unauthorized, s)) ∧
    (∀ (s : State) (sender : Addr) (now lid dd : Nat),
      lid < s.nextLicenseId → (s.licenses lid).licensor = sender →
      (s.licenses lid).status ≠ LicenseStatus.pending →
      approveLicense s sender now lid dd = (Except.error Err.invalidState, s)) ∧
    (∀ (s : State) (sender : Addr) (now lid dd : Nat),
      lid < s.nextLicenseId → (s.licenses lid).licensor = sender →
      (s.licenses lid).status = LicenseStatus.pending →
      (approveLicense s sender now lid dd).1 = Except.ok () ∧
      ((approveLicense s sender now lid dd).2.licenses lid).status =
        LicenseStatus.active ∧
      ((approveLicense s sender now lid dd).2.licenses lid).startTime = now ∧
      ((approveLicense s sender now lid dd).2.licenses lid).endTime =
        now + dd * 86400 ∧
      (∀ now2 dd2,
        approveLicense (approveLicense s sender now lid dd).2 sender now2 lid dd2 =
          (Except.error Err.invalidState,
           (approveLicense s sender now lid dd).2))) := by
  refine ⟨?_, ?_, ?_⟩
  · intro s sender now lid dd h1 h2
    simp [approveLicense, h1, h2]
  · intro s sender now lid dd h1 h2 h3
    simp [approveLicense, h1, h2, h3]
  · intro s sender now lid dd h1 h2 h3
    refine ⟨?_, ?_, ?_, ?_, ?_⟩
    · simp [approveLicense, h1, h2, h3]
    · simp [approveLicense, h1, h2, h3, upd]
    · simp [approveLicense, h1, h2, h3, upd]
    · simp [approveLicense, h1, h2, h3, upd]
    · intro now2 dd2
      simp [approveLicense, h1, h2, h3, upd]

/-- C4 witness: on the concrete Pending license `1` of `exLic`
(licensor `1`): a stranger (`7`) is `Unauthorized`, the licensor's approve
at time `400` for 30 days succeeds and activates the license with
`startTime 400` and `endTime 400 + 30·86400`, and a second approve fails
with `InvalidState`. -/
theorem c4_approveLicense_witness :
    approveLicense exLic 7 400 1 30 = (Except.error Err.unauthorized, exLic) ∧
    (approveLicense exLic 1 400 1 30).1 = Except.ok () ∧
    ((approveLicense exLic 1 400 1 30).2.licenses 1).status =
      LicenseStatus.active ∧
    ((approveLicense exLic 1 400 1 30).2.licenses 1).startTime = 400 ∧
    ((approveLicense exLic 1 400 1 30).2.licenses 1).endTime = 400 + 30 * 86400 ∧
    approveLicense (approveLicense exLic 1 400 1 30).2 1 500 1 10 =
      (Except.error Err.invalidState, (approveLicense exLic 1 400 1 30).2) := by
  have h1 := c4_approveLicense_spec.1 exLic 7 400 1 30 (by decide) (by decide)
  have h3 := c4_approveLicense_spec.2.2 exLic 1 400 1 30 (by decide) (by decide)
    (by decide)
  exact ⟨h1, h3.1, h3.2.1, h3.2.2.1, h3.2.2.2.1, h3.2.2.2.2 500 10⟩

/-- C5: `registerPatent` fails with `InvalidParameter` when the royalty
rate exceeds 10000 basis points or the validity is outside 1..20 years,
and succeeds otherwise — in particular at the boundary rate 10000 — with
`expirationTime = registrationTime + validityYears · 365 · 86400` (seconds)
and `registrationTime = now`. -/
theorem c5_registerPatent_spec :
    (∀ (s : State) (sender : Addr) (now rr mf ex vy : Nat) (ph : String)
        (tc : Nat) (conf : Bool), 10000 < rr →
      registerPatent s sender now rr mf ex vy ph tc conf =
        (Except.error Err.invalidParameter, s)) ∧
    (∀ (s : State) (sender : Addr) (now rr mf ex vy : Nat) (ph : String)
        (tc : Nat) (conf : Bool), ¬ (1 ≤ vy ∧ vy ≤ 20) →
      registerPatent s sender now rr mf ex vy ph tc conf =
        (Except.error Err.invalidParameter, s)) ∧
    (∀ (s : State) (sender : Addr) (now rr mf ex vy : Nat) (ph : String)
        (tc : Nat) (conf : Bool), rr ≤ 10000 → 1 ≤ vy → vy ≤ 20 →
      (registerPatent s sender now rr mf ex vy ph tc conf).1 =
        Except.ok s.nextPatentId ∧
      ((registerPatent s sender now rr mf ex vy ph tc conf).2.patents
          s.nextPatentId).registrationTime = now ∧
      ((registerPatent s sender now rr mf ex vy ph tc conf).2.patents
          s.nextPatentId).expirationTime = now + vy * 365 * 86400 ∧
      ((registerPatent s sender now rr mf ex vy ph tc conf).2.patents
          s.nextPatentId).status = PatentStatus.active) := by
  refine ⟨?_, ?_, ?_⟩
  · intro s sender now rr mf ex vy ph tc conf h
    simp [registerPatent, Nat.not_le.2 h]
  · intro s sender now rr mf ex vy ph tc conf h
    by_cases hrr : rr ≤ 10000
    · have hv : ¬ (0 < vy ∧ vy ≤ 20) := by omega
      simp [registerPatent, hrr, hv]
    · simp [registerPatent, hrr]
  · intro s sender now rr mf ex vy ph tc conf h1 h2 h3
    have hv0 : 0 < vy := h2
    cases conf <;>
      refine ⟨?_, ?_, ?_, ?_⟩ <;>
        simp [registerPatent, asEuint, allowThis, allow, upd, h1, hv0, h3]

/-- C5 witness: at the boundary royalty rate 10000 registration succeeds
(patent `1`, registered at time `100` for 5 years, expiring at
`100 + 5·365·86400`), while rate 10001 and validity 0 years or 21 years
each fail with `InvalidParameter`. -/
theorem c5_registerPatent_witness :
    (registerPatent exDeploy 1 100 10000 100 30 5 "QmHash" 1 true).1 =
      Except.ok exDeploy.nextPatentId ∧
    ((registerPatent exDeploy 1 100 10000 100 30 5 "QmHash" 1 true).2.patents
        exDeploy.nextPatentId).expirationTime = 100 + 5 * 365 * 86400 ∧
    registerPatent exDeploy 1 100 10001 100 30 5 "QmHash" 1 true =
      (Except.error Err.invalidParameter, exDeploy) ∧
    registerPatent exDeploy 1 100 500 100 30 0 "QmHash" 1 true =
      (Except.error Err.invalidParameter, exDeploy) ∧
    registerPatent exDeploy 1 100 500 100 30 21 "QmHash" 1 true =
      (Except.error Err.invalidParameter, exDeploy) := by
  have hok := c5_registerPatent_spec.2.2 exDeploy 1 100 10000 100 30 5
    "QmHash" 1 true (by decide) (by decide) (by decide)
  exact ⟨hok.1, hok.2.2.1,
    c5_registerPatent_spec.1 exDeploy 1 100 10001 100 30 5 "QmHash" 1 true
      (by decide),
    c5_registerPatent_spec.2.1 exDeploy 1 100 500 100 30 0 "QmHash" 1 true
      (by decide),
    c5_registerPatent_spec.2.1 exDeploy 1 100 500 100 30 21 "QmHash" 1 true
      (by decide)⟩

/-- C6: on an existing Active patent whose bidding window is open, a bid
submitted at or after the deadline fails with `AuctionClosed` (even though
`biddingOpen` is still `true`), a zero bid submitted inside the window
fails with `InvalidParameter`, and `finalizeBidding` called by the patent
owner before the deadline fails with `AuctionStillOpen`; each failure
leaves the state unchanged. -/
theorem c6_auction_window_errors :
    (∀ (s : State) (sender : Addr) (now pid amt : Nat),
      pid < s.nextPatentId → (s.patents pid).status = PatentStatus.active →
      s.biddingOpen pid = true → s.biddingEndTime pid ≤ now →
      submitConfidentialBid s sender now pid amt =
        (Except.error Err.auctionClosed, s)) ∧
    (∀ (s : State) (sender : Addr) (now pid : Nat),
      pid < s.nextPatentId → (s.patents pid).status = PatentStatus.active →
      s.biddingOpen pid = true → now < s.biddingEndTime pid →
      submitConfidentialBid s sender now pid 0 =
        (Except.error Err.invalidParameter, s)) ∧
    (∀ (s : State) (sender : Addr) (now pid : Nat),
      (s.patents pid).patentOwner = sender →
      s.biddingOpen pid = true → now < s.biddingEndTime pid →
      finalizeBidding s sender now pid =
        (Except.error Err.auctionStillOpen, s)) := by
  refine ⟨?_, ?_, ?_⟩
  · intro s sender now pid amt h1 h2 h3 h4
    simp [submitConfidentialBid, validPatentCheck_none s pid h1 h2, h3,
      Nat.not_lt.2 h4]
  · intro s sender now pid h1 h2 h3 h4
    simp [submitConfidentialBid, validPatentCheck_none s pid h1 h2, h3, h4]
  · intro s sender now pid h1 h2 h3
    simp [finalizeBidding, h1, h2, Nat.not_le.2 h3]

/-- C6 witness: on `exBid` (patent `1` Active, bidding open with deadline
`86600`): a bid of 5 by address `3` at the deadline time `86600` fails with
`AuctionClosed` although `biddingOpen 1 = true`; a zero bid at time `300`
fails with `InvalidParameter`; and the owner's `finalizeBidding` at time
`300` fails with `AuctionStillOpen`. -/
theorem c6_auction_window_witness :
    exBid.biddingOpen 1 = true ∧
    submitConfidentialBid exBid 3 86600 1 5 =
      (Except.error Err.auctionClosed, exBid) ∧
    submitConfidentialBid exBid 3 300 1 0 =
      (Except.error Err.invalidParameter, exBid) ∧
    finalizeBidding exBid 1 300 1 = (Except.error Err.auctionStillOpen, exBid) :=
  ⟨by decide,
   c6_auction_window_errors.1 exBid 3 86600 1 5 (by decide) (by decide)
     (by decide) (by decide),
   c6_auction_window_errors.2.1 exBid 3 300 1 (by decide) (by decide)
     (by decide) (by decide),
   c6_auction_window_errors.2.2 exBid 1 300 1 (by decide) (by decide)
     (by decide)⟩

/-- C7: the five synchronous operations — patent registration, license
request, license approval, bid submission and royalty payment — are atomic:
whenever one of them returns an error, the state it returns is exactly the
input state (no entity created or mutated, no permission granted, no
counter advanced).  This is a theorem about the code because the embedding
returns the state as mutated up to the point of failure. -/
theorem c7_synchronous_errors_are_atomic :
    (∀ (s : State) (sender : Addr) (now rr mf ex vy : Nat) (ph : String)
        (tc : Nat) (conf : Bool),
      isErr (registerPatent s sender now rr mf ex vy ph tc conf).1 = true →
      (registerPatent s sender now rr mf ex vy ph tc conf).2 = s) ∧
    (∀ (s : State) (sender : Addr) (pid fee rate cap dur : Nat)
        (exc ar : Bool) (tm : Nat),
      isErr (requestLicense s sender pid fee rate cap dur exc ar tm).1 = true →
      (requestLicense s sender pid fee rate cap dur exc ar tm).2 = s) ∧
    (∀ (s : State) (sender : Addr) (now lid dd : Nat),
      isErr (approveLicense s sender now lid dd).1 = true →
      (approveLicense s sender now lid dd).2 = s) ∧
    (∀ (s : State) (sender : Addr) (now pid amt : Nat),
      isErr (submitConfidentialBid s sender now pid amt).1 = true →
      (submitConfidentialBid s sender now pid amt).2 = s) ∧
    (∀ (s : State) (sender : Addr) (v now lid rev rp : Nat),
      isErr (payRoyalties s sender v now lid rev rp).1 = true →
      (payRoyalties s sender v now lid rev rp).2 = s) := by
  refine ⟨?_, ?_, ?_, ?_, ?_⟩
  · intro s sender now rr mf ex vy ph tc conf
    by_cases c1 : rr ≤ 10000 <;> by_cases c2 : 0 < vy ∧ vy ≤ 20 <;>
      simp [registerPatent, c1, c2, isErr]
  · intro s sender pid fee rate cap dur exc ar tm
    cases hvp : validPatentCheck s pid with
    | some e => simp [requestLicense, hvp, isErr]
    | none =>
      by_cases c1 : 0 < dur <;> by_cases c2 : rate ≤ 10000 <;>
        simp [requestLicense, hvp, c1, c2, isErr]
  · intro s sender now lid dd
    by_cases c1 : lid < s.nextLicenseId <;>
      by_cases c2 : (s.licenses lid).licensor = sender <;>
        by_cases c3 : (s.licenses lid).status = LicenseStatus.pending <;>
          simp [approveLicense, c1, c2, c3, isErr]
  · intro s sender now pid amt
    cases hvp : validPatentCheck s pid with
    | some e => simp [submitConfidentialBid, hvp, isErr]
    | none =>
      by_cases c1 : s.biddingOpen pid <;>
        by_cases c2 : now < s.biddingEndTime pid <;>
          by_cases c3 : 0 < amt <;>
            simp [submitConfidentialBid, hvp, c1, c2, c3, isErr]
  · intro s sender v now lid rev rp
    by_cases c1 : lid < s.nextLicenseId <;>
      by_cases c2 : (s.licenses lid).licensee = sender <;>
        by_cases c3 : (s.licenses lid).status = LicenseStatus.active <;>
          simp [payRoyalties, c1, c2, c3, isErr]

/-- C7 witness: one failing call of each of the five operations returns the
unchanged input state: registration with rate 10001, a request on the
missing patent `5`, an approve by a non-licensor, a bid on a patent whose
auction was never opened, and a royalty payment by a non-licensee. -/
theorem c7_atomicity_witness :
    (registerPatent exLic 1 600 10001 1 1 5 "QmHash" 1 true).2 = exLic ∧
    (requestLicense exLic 2 5 150 500 1000 60 false false 3).2 = exLic ∧
    (approveLicense exLic 7 600 1 30).2 = exLic ∧
    (submitConfidentialBid exReg 2 600 1 10).2 = exReg ∧
    (payRoyalties exLic 3 96 600 1 1000 7).2 = exLic :=
  ⟨c7_synchronous_errors_are_atomic.1 exLic 1 600 10001 1 1 5 "QmHash" 1 true
     (by decide),
   c7_synchronous_errors_are_atomic.2.1 exLic 2 5 150 500 1000 60 false false 3
     (by decide),
   c7_synchronous_errors_are_atomic.2.2.1 exLic 7 600 1 30 (by decide),
   c7_synchronous_errors_are_atomic.2.2.2.1 exReg 2 600 1 10 (by decide),
   c7_synchronous_errors_are_atomic.2.2.2.2 exLic 3 96 600 1 1000 7 (by decide)⟩

/-- C8: the contract deployer (the global `owner`, a principal distinct
from the patent's `patentOwner`) can at any time set any patent's status to
Suspended via `emergencyPause` and back to Active via `emergencyResume`,
even though the caller is not the patent owner — so the patent owner is
not the only principal able to change a patent's status. -/
theorem c8_contract_owner_can_pause_and_resume (s : State) (sender : Addr)
    (pid : Nat) (hown : sender = s.owner)
    (hnot : sender ≠ (s.patents pid).patentOwner) :
    (emergencyPause s sender pid).1 = Except.ok () ∧
    ((emergencyPause s sender pid).2.patents pid).status =
      PatentStatus.suspended ∧
    (emergencyResume s sender pid).1 = Except.ok () ∧
    ((emergencyResume s sender pid).2.patents pid).status =
      PatentStatus.active := by
  simp [emergencyPause, emergencyResume, upd, hown]

/-- C8 witness: on `exReg`, the deployer `9` (≠ patent owner `1`) pauses
and resumes patent `1`. -/
theorem c8_pause_resume_witness :
    (emergencyPause exReg 9 1).1 = Except.ok () ∧
    ((emergencyPause exReg 9 1).2.patents 1).status = PatentStatus.suspended ∧
    (emergencyResume exReg 9 1).1 = Except.ok () ∧
    ((emergencyResume exReg 9 1).2.patents 1).status = PatentStatus.active :=
  c8_contract_owner_can_pause_and_resume exReg 9 1 (by decide) (by decide)

/-- C9: for every existing patent whose status is not Active, the read-only
getter `getPatentInfo` fails with the patent-not-active error instead of
returning the patent's plain fields — for every caller, including the
patent's owner (the source never reads `msg.sender` here). -/
theorem c9_getPatentInfo_fails_on_inactive (s : State) (sender : Addr)
    (pid : Nat) (hex : pid < s.nextPatentId)
    (hst : (s.patents pid).status ≠ PatentStatus.active) :
    getPatentInfo s sender pid = Except.error Err.patentNotActive := by
  simp [getPatentInfo, validPatentCheck_inactive s pid hex hst]

/-- C9 witness: after the deployer suspends patent `1`, `getPatentInfo`
fails with `patentNotActive` both for the patent owner `1` and for a
stranger `8`. -/
theorem c9_getPatentInfo_witness :
    getPatentInfo exRegSusp 1 1 = Except.error Err.patentNotActive ∧
    getPatentInfo exRegSusp 8 1 = Except.error Err.patentNotActive :=
  ⟨c9_getPatentInfo_fails_on_inactive exRegSusp 1 1 (by decide) (by decide),
   c9_getPatentInfo_fails_on_inactive exRegSusp 8 1 (by decide) (by decide)⟩

/-- C10: `submitConfidentialBid` runs the `validPatent` guard before any
auction-window check, so a bid on an existing patent whose status is
Suspended or Expired fails with the patent-not-active error even while the
bidding window is open (`biddingOpen = true`) and before the deadline, and
leaves the state unchanged. -/
theorem c10_bid_requires_active_patent (s : State) (sender : Addr)
    (now pid amt : Nat) (hex : pid < s.nextPatentId)
    (hst : (s.patents pid).status ≠ PatentStatus.active)
    (hopen : s.biddingOpen pid = true) (htime : now < s.biddingEndTime pid) :
    submitConfidentialBid s sender now pid amt =
      (Except.error Err.patentNotActive, s) := by
  simp [submitConfidentialBid, validPatentCheck_inactive s pid hex hst]

/-- C10 witness: on `exSusp` (patent `1` Suspended by the deployer) and
`exExp` (patent `1` set to Expired by its owner), with the bidding window
on patent `1` still open (deadline `86600`), a bid of 7 by address `5` at
time `300` fails with `patentNotActive`. -/
theorem c10_bid_inactive_witness :
    submitConfidentialBid exSusp 5 300 1 7 =
      (Except.error Err.patentNotActive, exSusp) ∧
    submitConfidentialBid exExp 5 300 1 7 =
      (Except.error Err.patentNotActive, exExp) :=
  ⟨c10_bid_requires_active_patent exSusp 5 300 1 7 (by decide) (by decide)
     (by decide) (by decide),
   c10_bid_requires_active_patent exExp 5 300 1 7 (by decide) (by decide)
     (by decide) (by decide)⟩

end ConfidentialPatentLicense
